import Mathlib

/-!
Shallow embedding of the `myApp` web application (`src/myApp/app.py`), a small
FastAPI server that performs a LinkedIn OAuth2 authorization-code flow, stores
the obtained token in an in-memory dictionary, and exposes routes to view and
create posts.

Modelling conventions:

* JSON values decoded from provider responses are modelled by the inductive
  type `Json` (numbers as `Int`; floating-point payloads never occur in the
  guarded paths of this program's claims).
* Every outbound HTTP interaction is abstracted by an environment `Env` that
  fixes the outcome of each of the four provider calls the code can make:
  `none` models an HTTP-status error, a transport error, or a JSON-decoding
  error (all of which the source catches and maps to `None` / `[]`), while
  `some j` models a 2xx response whose decoded body is `j`.
* Handlers are pure functions from configuration, environment, request inputs
  and the current token store to a `RouteResult`: the HTTP response, the token
  store after the request, and the list of outbound calls actually issued.
* The source returns `HTTPException(...)` objects from handlers (rather than
  raising them); following the spec's reading, such a return is modelled as an
  error response carrying the given status code (`Response.httpException`).
* Python truthiness of the values that flow through the guarded paths is
  modelled by `pyTruthy` / `pyStrTruthy` / `optStrTruthy`.
-/

namespace MyApp

/-- A decoded JSON value, as produced by `response.json()` in the source.
Numbers are modelled as integers; the claims under study never exercise
floating-point payloads. -/
inductive Json where
  | null
  | bool (b : Bool)
  | str (s : String)
  | num (n : Int)
  | arr (xs : List Json)
  | obj (fields : List (String × Json))

mutual

def jsonBEq : Json → Json → Bool
  | .null, .null => true
  | .bool a, .bool b => a == b
  | .str a, .str b => a == b
  | .num a, .num b => a == b
  | .arr xs, .arr ys => jlistBEq xs ys
  | .obj fs, .obj gs => jobjBEq fs gs
  | _, _ => false

def jlistBEq : List Json → List Json → Bool
  | [], [] => true
  | x :: xs, y :: ys => jsonBEq x y && jlistBEq xs ys
  | _, _ => false

def jobjBEq : List (String × Json) → List (String × Json) → Bool
  | [], [] => true
  | (k, v) :: xs, (k2, v2) :: ys => k == k2 && jsonBEq v v2 && jobjBEq xs ys
  | _, _ => false

end

mutual

theorem jsonBEq_iff : ∀ a b : Json, jsonBEq a b = true ↔ a = b
  | .null, .null => by simp [jsonBEq]
  | .bool _, .bool _ => by simp [jsonBEq]
  | .str _, .str _ => by simp [jsonBEq]
  | .num _, .num _ => by simp [jsonBEq]
  | .arr xs, .arr ys => by simp [jsonBEq, jlistBEq_iff xs ys]
  | .obj fs, .obj gs => by simp [jsonBEq, jobjBEq_iff fs gs]
  | .null, .bool _ => by simp [jsonBEq]
  | .null, .str _ => by simp [jsonBEq]
  | .null, .num _ => by simp [jsonBEq]
  | .null, .arr _ => by simp [jsonBEq]
  | .null, .obj _ => by simp [jsonBEq]
  | .bool _, .null => by simp [jsonBEq]
  | .bool _, .str _ => by simp [jsonBEq]
  | .bool _, .num _ => by simp [jsonBEq]
  | .bool _, .arr _ => by simp [jsonBEq]
  | .bool _, .obj _ => by simp [jsonBEq]
  | .str _, .null => by simp [jsonBEq]
  | .str _, .bool _ => by simp [jsonBEq]
  | .str _, .num _ => by simp [jsonBEq]
  | .str _, .arr _ => by simp [jsonBEq]
  | .str _, .obj _ => by simp [jsonBEq]
  | .num _, .null => by simp [jsonBEq]
  | .num _, .bool _ => by simp [jsonBEq]
  | .num _, .str _ => by simp [jsonBEq]
  | .num _, .arr _ => by simp [jsonBEq]
  | .num _, .obj _ => by simp [jsonBEq]
  | .arr _, .null => by simp [jsonBEq]
  | .arr _, .bool _ => by simp [jsonBEq]
  | .arr _, .str _ => by simp [jsonBEq]
  | .arr _, .num _ => by simp [jsonBEq]
  | .arr _, .obj _ => by simp [jsonBEq]
  | .obj _, .null => by simp [jsonBEq]
  | .obj _, .bool _ => by simp [jsonBEq]
  | .obj _, .str _ => by simp [jsonBEq]
  | .obj _, .num _ => by simp [jsonBEq]
  | .obj _, .arr _ => by simp [jsonBEq]

theorem jlistBEq_iff : ∀ xs ys : List Json, jlistBEq xs ys = true ↔ xs = ys
  | [], [] => by simp [jlistBEq]
  | x :: xs, y :: ys => by simp [jlistBEq, jsonBEq_iff x y, jlistBEq_iff xs ys]
  | [], _ :: _ => by simp [jlistBEq]
  | _ :: _, [] => by simp [jlistBEq]

theorem jobjBEq_iff : ∀ xs ys : List (String × Json), jobjBEq xs ys = true ↔ xs = ys
  | [], [] => by simp [jobjBEq]
  | (_, v) :: xs, (_, v2) :: ys => by simp [jobjBEq, jsonBEq_iff v v2, jobjBEq_iff xs ys]
  | [], _ :: _ => by simp [jobjBEq]
  | _ :: _, [] => by simp [jobjBEq]

end

instance : DecidableEq Json := fun a b =>
  if h : jsonBEq a b = true then .isTrue ((jsonBEq_iff a b).mp h)
  else .isFalse (fun he => h ((jsonBEq_iff a b).mpr he))

/-- Python truthiness of a decoded JSON value (`if x:`): `None`, `False`, `0`,
`""`, `[]` and `{}` are falsy, everything else truthy. -/
def pyTruthy : Json → Bool
  | .null => false
  | .bool b => b
  | .str s => !(s == "")
  | .num n => !(n == 0)
  | .arr xs => !xs.isEmpty
  | .obj fs => !fs.isEmpty

/-- Python truthiness of a string: falsy exactly when empty. -/
def pyStrTruthy (s : String) : Bool := !(s == "")

/-- Python truthiness of an optional string parameter (`None` or a `str`). -/
def optStrTruthy : Option String → Bool
  | none => false
  | some s => pyStrTruthy s

/-- Python truthiness of an optional JSON value (`None` or decoded JSON). -/
def pyTruthyOpt : Option Json → Bool
  | none => false
  | some j => pyTruthy j

/-- Python falsiness of an optional JSON value (`if not x:`). -/
def pyFalsyOpt (o : Option Json) : Bool := !(pyTruthyOpt o)

/-- Dictionary field lookup on a JSON value: `some` on an object holding the
key, `none` otherwise (missing key, or not a dict at all). -/
def jLookup (j : Json) (k : String) : Option Json :=
  match j with
  | .obj fs => fs.lookup k
  | _ => none

/-- Python `d.get(k, default)` on a decoded JSON value. The result is `none`
when the receiver is not a dict, modelling the `AttributeError` Python raises
in that case (always caught by the enclosing `except` in the source). -/
def jGetD (j : Json) (k : String) (d : Json) : Option Json :=
  match j with
  | .obj fs => some ((fs.lookup k).getD d)
  | _ => none

/-- Python `d[k]` on a decoded JSON value. Every use in the source is guarded
by a preceding `k in d` check, so the `KeyError` / non-dict cases (mapped to
`Json.null` here) are unreachable where this is applied. -/
def jIndex (j : Json) (k : String) : Json := (jLookup j k).getD .null

/-- Contiguous-sublist test on character lists, used for Python's substring
containment `k in s`. -/
def charSub (needle : List Char) : List Char → Bool
  | [] => needle.isEmpty
  | c :: rest => List.isPrefixOf needle (c :: rest) || charSub needle rest

/-- Python `k in j` for a string `k`: key membership on dicts, element
membership on lists, substring test on strings. On numbers, booleans and
`None`, Python raises `TypeError`; the guarded call sites in the source never
reach those cases, which are mapped to `false` here. -/
def pyIn (k : String) (j : Json) : Bool :=
  match j with
  | .obj fs => (fs.lookup k).isSome
  | .arr xs => xs.any (fun x => jsonBEq x (.str k))
  | .str s => charSub k.data s.data
  | _ => false

mutual

/-- Python `repr` of a decoded JSON value, as used transitively by f-string
interpolation of container values. String escaping and quote selection inside
`repr` are simplified to plain single-quoting; the claims under study only
interpolate plain strings, which never reach these cases. -/
def pyRepr : Json → String
  | .null => "None"
  | .bool true => "True"
  | .bool false => "False"
  | .str s => String.singleton (Char.ofNat 39) ++ s ++ String.singleton (Char.ofNat 39)
  | .num n => toString n
  | .arr xs => "[" ++ pyReprList xs ++ "]"
  | .obj fs => "\x7b" ++ pyReprObj fs ++ "\x7d"

def pyReprList : List Json → String
  | [] => ""
  | [x] => pyRepr x
  | x :: xs => pyRepr x ++ ", " ++ pyReprList xs

def pyReprObj : List (String × Json) → String
  | [] => ""
  | [(k, v)] =>
      String.singleton (Char.ofNat 39) ++ k ++ String.singleton (Char.ofNat 39) ++ ": " ++ pyRepr v
  | (k, v) :: fs =>
      String.singleton (Char.ofNat 39) ++ k ++ String.singleton (Char.ofNat 39) ++ ": " ++ pyRepr v
        ++ ", " ++ pyReprObj fs

end

/-- Python `str(x)` of a decoded JSON value, as used by f-string
interpolation (`f"urn:li:person:X"` with `X` interpolated). -/
def pyStr : Json → String
  | .null => "None"
  | .bool true => "True"
  | .bool false => "False"
  | .str s => s
  | .num n => toString n
  | .arr xs => pyRepr (.arr xs)
  | .obj fs => pyRepr (.obj fs)

/-- Python `s.endswith(t)`. -/
def pyEndsWith (s t : String) : Bool := List.isSuffixOf t.data s.data

/-! ### URL encoding (`urllib.parse.urlencode` with its default `quote_plus`) -/

/-- Upper-case hexadecimal digit, as produced by percent-encoding. -/
def hexDigit (n : Nat) : Char :=
  if n < 10 then Char.ofNat (48 + n) else Char.ofNat (55 + n)

/-- UTF-8 encoding of a character, as byte values. -/
def utf8Bytes (c : Char) : List Nat :=
  let n := c.toNat
  if n < 0x80 then [n]
  else if n < 0x800 then [0xC0 + n / 64, 0x80 + n % 64]
  else if n < 0x10000 then [0xE0 + n / 4096, 0x80 + (n / 64) % 64, 0x80 + n % 64]
  else [0xF0 + n / 262144, 0x80 + (n / 4096) % 64, 0x80 + (n / 64) % 64, 0x80 + n % 64]

/-- The bytes `quote_plus` leaves unencoded: ASCII alphanumerics and
`-`, `.`, `_`, `~`. -/
def isSafeByte (b : Nat) : Bool :=
  (48 ≤ b && b ≤ 57) || (65 ≤ b && b ≤ 90) || (97 ≤ b && b ≤ 122) ||
  b == 45 || b == 46 || b == 95 || b == 126

/-- Encoding of a single byte under `quote_plus`: space becomes `+`, safe
bytes stand for themselves, everything else is percent-encoded. -/
def encodeByte (b : Nat) : List Char :=
  if b == 32 then ['+']
  else if isSafeByte b then [Char.ofNat b]
  else ['%', hexDigit (b / 16), hexDigit (b % 16)]

/-- `urllib.parse.quote_plus`: percent-encode the UTF-8 bytes of a string,
with space mapped to `+`. -/
def quote_plus (s : String) : String :=
  ⟨(s.data.flatMap utf8Bytes).flatMap encodeByte⟩

/-- `urllib.parse.urlencode`: `&`-joined `key=value` pairs, each component
passed through `quote_plus`. -/
def urlencode : List (String × String) → String
  | [] => ""
  | [(k, v)] => quote_plus k ++ "=" ++ quote_plus v
  | (k, v) :: ps => quote_plus k ++ "=" ++ quote_plus v ++ "&" ++ urlencode ps

/-! ### Configuration, environment, data model -/

/-- The LinkedIn authorization endpoint (`LINKEDIN_AUTH_URL` in the source). -/
def LINKEDIN_AUTH_URL : String := "https://www.linkedin.com/oauth/v2/authorization"

/-- Environment-sourced configuration. `LINKEDIN_CLIENT_ID` and
`LINKEDIN_CLIENT_SECRET` are read by `os.getenv` with no default and may be
absent (`none`); `LINKEDIN_REDIRECT_URI` is read with a default, so it is
always a string (possibly empty if the variable is set to `""`). -/
structure Cfg where
  LINKEDIN_CLIENT_ID : Option String
  LINKEDIN_CLIENT_SECRET : Option String
  LINKEDIN_REDIRECT_URI : String
  deriving DecidableEq

/-- Outcomes of the outbound provider calls: for each call the source can
make, `none` models an HTTP error status, transport error, or body-decoding
error (each caught by the source and mapped to `None` / `[]`), and `some j`
models a successful response decoding to `j`. -/
structure Env where
  tokenResp : Option Json
  profileResp : Option Json
  createResp : Option Json
  postsResp : Option Json
  deriving DecidableEq

/-- A value of the in-memory token store: `{"access_token": ..,
"author_urn": ..}` as written by the callback handler. The access token is
whatever JSON value the token payload held under `"access_token"`. -/
structure TokenRecord where
  access_token : Json
  author_urn : String
  deriving DecidableEq

/-- The in-memory `user_tokens` dictionary: keys are the profile `id` values
(insertion-ordered, as Python dicts are). -/
abbrev Store := List (Json × TokenRecord)

/-- Python dict assignment `d[k] = v`: overwrite in place if the key exists,
else append at the end. -/
def dictInsert (store : Store) (k : Json) (v : TokenRecord) : Store :=
  match store with
  | [] => [(k, v)]
  | (k0, v0) :: rest => if k0 = k then (k0, v) :: rest else (k0, v0) :: dictInsert rest k v

/-- Python dict lookup `d.get(k)` on the token store. -/
def dictLookup (store : Store) (k : Json) : Option TokenRecord :=
  match store with
  | [] => none
  | (k0, v0) :: rest => if k0 = k then some v0 else dictLookup rest k

/-- One outbound HTTP request issued by the application, with the arguments
that shape it. -/
inductive OutCall where
  | tokenExchange (code : String)
  | profileFetch (access_token : Json)
  | createPost (access_token : Json) (author_urn : String) (content : String)
  | fetchPosts (access_token : Json) (author_urn : String)
  deriving DecidableEq

/-- The post view model built by `fetch_linkedin_posts`. -/
structure Post where
  text : Json
  author_name : String
  timestamp : Json
  deriving DecidableEq

/-- The template context dictionary passed to `index.html`, with `none` for
keys a given render does not set (the `request` key, always present and
opaque, is omitted). -/
structure TemplateCtx where
  is_authenticated : Option Bool
  auth_url : Option String
  error : Option String
  posts : Option (List Post)
  deriving DecidableEq

/-- A handler's return value. `httpException` models the source returning an
`HTTPException(status_code, detail)` object, read (as the spec does) as an
error response with that status. `redirect` carries the explicit or default
(307) status code of `RedirectResponse`. -/
inductive Response where
  | template (name : String) (ctx : TemplateCtx)
  | redirect (url : String) (status_code : Nat)
  | httpException (status_code : Nat) (detail : String)
  deriving DecidableEq

/-- Result of one request: the response, the token store after the request,
and the outbound calls issued while handling it. -/
structure RouteResult where
  response : Response
  store : Store
  calls : List OutCall
  deriving DecidableEq

/-! ### Helper functions for LinkedIn API calls (app.py lines 86-225) -/

/-- `get_linkedin_auth_url` (app.py 86-100): the OAuth authorization URL, or
the sentinel `"/error"` when client ID or redirect URI is not configured. -/
def get_linkedin_auth_url (cfg : Cfg) : String :=
  if !(optStrTruthy cfg.LINKEDIN_CLIENT_ID) || !(pyStrTruthy cfg.LINKEDIN_REDIRECT_URI) then
    "/error"
  else
    LINKEDIN_AUTH_URL ++ "?" ++ urlencode [
      ("response_type", "code"),
      ("client_id", cfg.LINKEDIN_CLIENT_ID.getD ""),
      ("redirect_uri", cfg.LINKEDIN_REDIRECT_URI),
      ("scope", "r_liteprofile r_emailaddress w_member_social"),
      ("state", "some_random_string_to_prevent_csrf")]

/-- `get_linkedin_access_token` (app.py 102-129): `None` without full
credential configuration; otherwise the token endpoint's decoded payload, or
`None` on HTTP/transport failure (both folded into `env.tokenResp`). -/
def get_linkedin_access_token (cfg : Cfg) (env : Env) (code : String) :
    Option Json × List OutCall :=
  if !(optStrTruthy cfg.LINKEDIN_CLIENT_ID) || !(optStrTruthy cfg.LINKEDIN_CLIENT_SECRET)
      || !(pyStrTruthy cfg.LINKEDIN_REDIRECT_URI) then
    (none, [])
  else
    (env.tokenResp, [.tokenExchange code])

/-- `get_linkedin_profile` (app.py 131-149): `None` on a falsy access token;
otherwise the profile endpoint's decoded payload or `None` on failure. -/
def get_linkedin_profile (env : Env) (access_token : Json) : Option Json × List OutCall :=
  if !(pyTruthy access_token) then (none, [])
  else (env.profileResp, [.profileFetch access_token])

/-- `create_linkedin_post` (app.py 151-189): `None` on falsy access token or
author URN; otherwise the create endpoint's decoded payload or `None` on
failure. -/
def create_linkedin_post (env : Env) (access_token : Json) (author_urn : String)
    (post_content : String) : Option Json × List OutCall :=
  if !(pyTruthy access_token) || !(pyStrTruthy author_urn) then (none, [])
  else (env.createResp, [.createPost access_token author_urn post_content])

/-- The per-element body of the formatting loop in `fetch_linkedin_posts`
(app.py 210-218): `none` models an exception inside the loop (e.g. `.get` on
a non-dict), which the enclosing `except` turns into an empty result. -/
def formatPost (post : Json) : Option Post := do
  let sc ← jGetD post "specificContent" (.obj [])
  let shc ← jGetD sc "com.linkedin.ugc.ShareContent" (.obj [])
  let com ← jGetD shc "shareCommentary" (.obj [])
  let text ← jGetD com "text" (.str "No text available")
  let ts ← jGetD post "created" (.str "Unknown Date")
  pure ⟨text, "You", ts⟩

/-- `fetch_linkedin_posts` (app.py 192-225): empty list on falsy credentials;
otherwise the formatted posts from the response's `elements` list, with every
failure path (HTTP error, non-dict response, missing or non-list `elements`,
malformed element) yielding the empty list via the catch-all `except`. -/
def fetch_linkedin_posts (env : Env) (access_token : Json) (author_urn : String) :
    List Post × List OutCall :=
  if !(pyTruthy access_token) || !(pyStrTruthy author_urn) then ([], [])
  else
    let res : List Post :=
      match env.postsResp with
      | none => []
      | some posts_data =>
        match jGetD posts_data "elements" (.arr []) with
        | none => []
        | some (.arr posts) => (posts.mapM formatPost).getD []
        | some _ => []
    (res, [.fetchPosts access_token author_urn])

/-! ### Routes (app.py 230-362) -/

/-- `read_root`, `GET /` (app.py 230-257). -/
def read_root (cfg : Cfg) (env : Env) (store : Store) : RouteResult :=
  match store with
  | [] =>
    ⟨.template "index.html" ⟨some false, some (get_linkedin_auth_url cfg), none, none⟩,
      store, []⟩
  | (_, token_info) :: _ =>
    if !(pyTruthy token_info.access_token) || !(pyStrTruthy token_info.author_urn) then
      ⟨.template "index.html" ⟨some false, some (get_linkedin_auth_url cfg), none, none⟩,
        store, []⟩
    else
      let res := fetch_linkedin_posts env token_info.access_token token_info.author_urn
      ⟨.template "index.html" ⟨some true, none, none, some res.1⟩, store, res.2⟩

/-- `login`, `GET /login` (app.py 259-266). -/
def login (cfg : Cfg) : Response :=
  let auth_url := get_linkedin_auth_url cfg
  if pyStrTruthy auth_url && !(pyEndsWith auth_url "/error") then
    .redirect auth_url 307
  else
    .httpException 500 "Failed to generate LinkedIn auth URL."

/-- `callback`, `GET /callback` (app.py 268-306). The `state` query parameter
is accepted and ignored, as in the source. -/
def callback (cfg : Cfg) (env : Env) (code error _state : Option String) (store : Store) :
    RouteResult :=
  if optStrTruthy error then
    ⟨.httpException 400 ("LinkedIn authorization failed: " ++ error.getD ""), store, []⟩
  else if !(optStrTruthy code) then
    ⟨.httpException 400 "No authorization code received.", store, []⟩
  else
    let tk := get_linkedin_access_token cfg env (code.getD "")
    if pyFalsyOpt tk.1 || !(pyIn "access_token" (tk.1.getD .null)) then
      ⟨.httpException 500 "Failed to retrieve access token from LinkedIn.", store, tk.2⟩
    else
      let access_token := jIndex (tk.1.getD .null) "access_token"
      let pr := get_linkedin_profile env access_token
      if pyFalsyOpt pr.1 || !(pyIn "id" (pr.1.getD .null)) then
        ⟨.httpException 500 "Failed to retrieve user profile from LinkedIn.", store,
          tk.2 ++ pr.2⟩
      else
        let user_id := jIndex (pr.1.getD .null) "id"
        let author_urn := "urn:li:person:" ++ pyStr user_id
        ⟨.redirect "/" 307, dictInsert store user_id ⟨access_token, author_urn⟩,
          tk.2 ++ pr.2⟩

/-- `create_post`, `POST /create_post` (app.py 308-343). The handler does not
read the configuration, so it takes none. -/
def create_post (env : Env) (store : Store) (post_content : String) : RouteResult :=
  if !(pyStrTruthy post_content) then
    ⟨.template "index.html" ⟨none, none, some "Post content cannot be empty.", some []⟩,
      store, []⟩
  else
    match store with
    | [] => ⟨.redirect "/login" 307, store, []⟩
    | (_, token_info) :: _ =>
      if !(pyTruthy token_info.access_token) || !(pyStrTruthy token_info.author_urn) then
        ⟨.redirect "/login" 307, store, []⟩
      else
        let cr := create_linkedin_post env token_info.access_token token_info.author_urn
          post_content
        if pyTruthyOpt cr.1 then
          ⟨.redirect "/" 303, store, cr.2⟩
        else
          let res := fetch_linkedin_posts env token_info.access_token token_info.author_urn
          ⟨.template "index.html" ⟨none, none, some "Failed to create post.", some res.1⟩,
            store, cr.2 ++ res.2⟩

/-- `refresh_posts_route`, `GET /refresh_posts` (app.py 345-362). -/
def refresh_posts_route (env : Env) (store : Store) : RouteResult :=
  match store with
  | [] => ⟨.redirect "/login" 307, store, []⟩
  | (_, token_info) :: _ =>
    if !(pyTruthy token_info.access_token) || !(pyStrTruthy token_info.author_urn) then
      ⟨.redirect "/login" 307, store, []⟩
    else
      let res := fetch_linkedin_posts env token_info.access_token token_info.author_urn
      ⟨.template "index.html" ⟨some true, none, none, some res.1⟩, store, res.2⟩

/-- The key the callback handler would store under, given the environment:
the `id` field of the successfully fetched profile. -/
def callbackStoredKey (env : Env) : Option Json :=
  env.profileResp.map (fun pd => jIndex pd "id")

/-! ### Concrete sample data, used by the witness theorems -/

/-- The trailing, configuration-independent part of the authorization query
string: the encoded scope list and static anti-CSRF state value. -/
def authQueryTail : String :=
  "scope=r_liteprofile+r_emailaddress+w_member_social&state=some_random_string_to_prevent_csrf"

/-- Sample configuration with full credentials. -/
def sampleCfg : Cfg := ⟨some "client-id", some "client-secret", "http://localhost:8000/callback"⟩

/-- Configuration with the client ID missing. -/
def badCfg : Cfg := ⟨none, some "client-secret", "http://localhost:8000/callback"⟩

/-- Sample access-token value. -/
def sampleToken : Json := .str "AQXtoken"

/-- Sample environment where every provider call succeeds. -/
def sampleEnv : Env :=
  ⟨some (.obj [("access_token", sampleToken), ("expires_in", .num 5184000)]),
    some (.obj [("id", .str "123"), ("localizedFirstName", .str "Ada")]),
    some (.obj [("id", .str "urn:li:share:42")]),
    some (.obj [("elements", .arr [.obj [("specificContent",
      .obj [("com.linkedin.ugc.ShareContent",
        .obj [("shareCommentary", .obj [("text", .str "hello world")])])]),
      ("created", .num 1700000000000)]])])⟩

/-- Environment in which the create-post call fails. -/
def failCreateEnv : Env := { sampleEnv with createResp := none }

/-- A token store already holding a session for a distinct user. -/
def sampleStore : Store := [(.str "999", ⟨.str "oldToken", "urn:li:person:999"⟩)]

end MyApp

namespace MyApp

/-! ### Supporting lemmas -/

theorem dictLookup_dictInsert_self (store : Store) (k : Json) (v : TokenRecord) :
    dictLookup (dictInsert store k v) k = some v := by
  induction store with
  | nil => simp [dictInsert, dictLookup]
  | cons kv rest ih =>
    obtain ⟨k0, v0⟩ := kv
    by_cases h : k0 = k <;> simp [dictInsert, dictLookup, h, ih]

theorem dictLookup_dictInsert_ne (store : Store) (k k1 : Json) (v : TokenRecord)
    (h : k1 ≠ k) : dictLookup (dictInsert store k v) k1 = dictLookup store k1 := by
  induction store with
  | nil => simp [dictInsert, dictLookup, Ne.symm h]
  | cons kv rest ih =>
    obtain ⟨k0, v0⟩ := kv
    by_cases h0 : k0 = k
    · subst h0
      simp [dictInsert, dictLookup, Ne.symm h]
    · simp [dictInsert, dictLookup, h0, ih]

theorem auth_url_eq (cfg : Cfg) (h1 : optStrTruthy cfg.LINKEDIN_CLIENT_ID = true)
    (h2 : pyStrTruthy cfg.LINKEDIN_REDIRECT_URI = true) :
    get_linkedin_auth_url cfg =
      LINKEDIN_AUTH_URL ++ "?" ++ "response_type=code&client_id=" ++
        quote_plus (cfg.LINKEDIN_CLIENT_ID.getD "") ++ "&" ++ "redirect_uri=" ++
        quote_plus cfg.LINKEDIN_REDIRECT_URI ++ "&" ++ authQueryTail := by
  have hTail2 : quote_plus "scope" ++ "=" ++
      quote_plus "r_liteprofile r_emailaddress w_member_social" ++ "&" ++
      (quote_plus "state" ++ "=" ++ quote_plus "some_random_string_to_prevent_csrf") =
      authQueryTail := by decide
  have hRT : quote_plus "response_type" ++ "=" ++ quote_plus "code" ++ "&" =
      "response_type=code&" := by decide
  have hCID : quote_plus "client_id" ++ "=" = "client_id=" := by decide
  have hRURI : quote_plus "redirect_uri" ++ "=" = "redirect_uri=" := by decide
  simp only [get_linkedin_auth_url, urlencode, h1, h2, Bool.not_true, Bool.false_or,
    Bool.or_self, Bool.or_false, Bool.false_eq_true, ite_false]
  rw [hTail2, hRT, hCID, hRURI]
  simp [← String.append_assoc]

theorem append_tail_ne_error (pre : String) : pre ++ authQueryTail ≠ "/error" := by
  intro h
  have hd := congrArg String.data h
  rw [String.data_append] at hd
  have hl := congrArg List.length hd
  rw [List.length_append] at hl
  have ht : 6 < authQueryTail.data.length := by decide
  have he : "/error".data.length = 6 := by decide
  omega

theorem append_tail_truthy (pre : String) : pyStrTruthy (pre ++ authQueryTail) = true := by
  have hne : pre ++ authQueryTail ≠ "" := by
    intro h
    have hd := congrArg String.data h
    rw [String.data_append] at hd
    have hl := congrArg List.length hd
    rw [List.length_append] at hl
    have ht : 0 < authQueryTail.data.length := by decide
    have he : ("" : String).data.length = 0 := by decide
    omega
  simp [pyStrTruthy, hne]

theorem append_tail_not_endswith_error (pre : String) :
    pyEndsWith (pre ++ authQueryTail) "/error" = false := by
  unfold pyEndsWith
  rw [String.data_append]
  cases hsuf : List.isSuffixOf "/error".data (pre.data ++ authQueryTail.data) with
  | false => rfl
  | true =>
    have hs := List.isSuffixOf_iff_suffix.mp hsuf
    have hta : authQueryTail.data <:+ pre.data ++ authQueryTail.data := List.suffix_append _ _
    have h3 : "/error".data <:+ authQueryTail.data :=
      List.suffix_of_suffix_length_le hs hta (by decide)
    exact absurd (List.isSuffixOf_iff_suffix.mpr h3) (by decide)

/-! ### The claims -/

/-- C1: whenever the `error` query parameter of `GET /callback` is a non-empty
string, the handler answers with status 400 (with the error interpolated into
the detail message), leaves the token store unchanged, and issues no outbound
call — whether or not `code` is present. -/
theorem callback_provider_error_400 (cfg : Cfg) (env : Env) (code : Option String)
    (e : String) (st : Option String) (store : Store) (h : e ≠ "") :
    callback cfg env code (some e) st store =
      ⟨.httpException 400 ("LinkedIn authorization failed: " ++ e), store, []⟩ := by
  simp [callback, optStrTruthy, pyStrTruthy, h]

theorem callback_provider_error_400_witness :
    "user_cancelled" ≠ "" ∧
    callback ⟨some "cid", some "sec", "http://localhost:8000/callback"⟩
        ⟨none, none, none, none⟩ (some "authcode") (some "user_cancelled") none [] =
      ⟨.httpException 400 ("LinkedIn authorization failed: " ++ "user_cancelled"), [], []⟩ :=
  ⟨by decide,
    callback_provider_error_400 ⟨some "cid", some "sec", "http://localhost:8000/callback"⟩
      ⟨none, none, none, none⟩ (some "authcode") "user_cancelled" none [] (by decide)⟩

/-- C2: on a callback with a valid code and no error, when the token exchange
succeeds with a payload holding `access_token` and the profile fetch succeeds
with id `"123"`, the response is a redirect to `/` and the store afterwards
maps `"123"` to a record with author URN `urn:li:person:123` and the exchanged
access token. -/
theorem callback_success_stores_token (cfg : Cfg) (env : Env) (c : String)
    (st : Option String) (store : Store) (hc : c ≠ "")
    (h1 : optStrTruthy cfg.LINKEDIN_CLIENT_ID = true)
    (h2 : optStrTruthy cfg.LINKEDIN_CLIENT_SECRET = true)
    (h3 : pyStrTruthy cfg.LINKEDIN_REDIRECT_URI = true)
    (tfs : List (String × Json)) (htd : env.tokenResp = some (.obj tfs))
    (tok : Json) (htok : tfs.lookup "access_token" = some tok) (htokT : pyTruthy tok = true)
    (pfs : List (String × Json)) (hpd : env.profileResp = some (.obj pfs))
    (hid : pfs.lookup "id" = some (.str "123")) :
    (callback cfg env (some c) none st store).response = .redirect "/" 307 ∧
    dictLookup (callback cfg env (some c) none st store).store (.str "123") =
      some ⟨tok, "urn:li:person:123"⟩ := by
  have htfs : tfs.isEmpty = false := by cases tfs <;> simp_all
  have hpfs : pfs.isEmpty = false := by cases pfs <;> simp_all
  have hcode : optStrTruthy (some c) = true := by simp [optStrTruthy, pyStrTruthy, hc]
  have htdT : pyTruthy (Json.obj tfs) = true := by simp [pyTruthy, htfs]
  have hpdT : pyTruthy (Json.obj pfs) = true := by simp [pyTruthy, hpfs]
  have hin1 : pyIn "access_token" (Json.obj tfs) = true := by simp [pyIn, htok]
  have hin2 : pyIn "id" (Json.obj pfs) = true := by simp [pyIn, hid]
  have hjx : jIndex (Json.obj tfs) "access_token" = tok := by simp [jIndex, jLookup, htok]
  have hjd : jIndex (Json.obj pfs) "id" = Json.str "123" := by simp [jIndex, jLookup, hid]
  have hcstr : pyStrTruthy c = true := by simp [pyStrTruthy, hc]
  have herr : optStrTruthy (none : Option String) = false := rfl
  simp [callback, get_linkedin_access_token, get_linkedin_profile, pyFalsyOpt, pyTruthyOpt,
    hcode, hcstr, herr, h1, h2, h3, htd, hpd, htdT, hpdT, hin1, hin2, hjx, hjd, htokT,
    pyStr, dictLookup_dictInsert_self]

theorem callback_success_stores_token_witness :
    pyTruthy sampleToken = true ∧
    (callback sampleCfg sampleEnv (some "authcode") none none []).response =
      .redirect "/" 307 ∧
    dictLookup (callback sampleCfg sampleEnv (some "authcode") none none []).store
      (.str "123") = some ⟨sampleToken, "urn:li:person:123"⟩ :=
  ⟨by decide,
    callback_success_stores_token sampleCfg sampleEnv "authcode" none [] (by decide)
      (by decide) (by decide) (by decide)
      [("access_token", sampleToken), ("expires_in", .num 5184000)] rfl
      sampleToken (by decide) (by decide)
      [("id", .str "123"), ("localizedFirstName", .str "Ada")] rfl (by decide)⟩

/-- C3: a `POST /create_post` with non-empty content against an empty token
store redirects to `/login` and issues no outbound call at all — in
particular no create request. -/
theorem create_post_unauthenticated_redirect (env : Env) (c : String) (h : c ≠ "") :
    create_post env [] c = ⟨.redirect "/login" 307, [], []⟩ := by
  simp [create_post, pyStrTruthy, h]

theorem create_post_unauthenticated_redirect_witness :
    "Hello LinkedIn" ≠ "" ∧
    create_post ⟨none, none, none, none⟩ [] "Hello LinkedIn" =
      ⟨.redirect "/login" 307, [], []⟩ :=
  ⟨by decide, create_post_unauthenticated_redirect ⟨none, none, none, none⟩
    "Hello LinkedIn" (by decide)⟩

/-- C4: with non-empty content and a stored session whose token and URN are
present, a truthy create result yields a 303 redirect to `/` (with only the
create call issued), and a failed (`None`) create result yields the form page
re-rendered with an error and the freshly re-fetched post list (the fetch
call being issued after the create call). -/
theorem create_post_outcomes (env : Env) (uid : Json) (ti : TokenRecord) (rest : Store)
    (c : String) (hc : c ≠ "") (htok : pyTruthy ti.access_token = true)
    (hurn : ti.author_urn ≠ "") :
    (∀ r, env.createResp = some r → pyTruthy r = true →
      create_post env ((uid, ti) :: rest) c =
        ⟨.redirect "/" 303, (uid, ti) :: rest,
          [.createPost ti.access_token ti.author_urn c]⟩) ∧
    (env.createResp = none →
      create_post env ((uid, ti) :: rest) c =
        ⟨.template "index.html" ⟨none, none, some "Failed to create post.",
            some (fetch_linkedin_posts env ti.access_token ti.author_urn).1⟩,
          (uid, ti) :: rest,
          [.createPost ti.access_token ti.author_urn c,
            .fetchPosts ti.access_token ti.author_urn]⟩) := by
  have hcstr : pyStrTruthy c = true := by simp [pyStrTruthy, hc]
  have hurn' : pyStrTruthy ti.author_urn = true := by simp [pyStrTruthy, hurn]
  constructor
  · intro r hr hrT
    simp [create_post, create_linkedin_post, pyTruthyOpt, hcstr, htok, hurn', hr, hrT]
  · intro hr
    simp [create_post, create_linkedin_post, fetch_linkedin_posts, pyTruthyOpt,
      hcstr, htok, hurn', hr]

theorem create_post_outcomes_witness :
    pyTruthy sampleToken = true ∧
    create_post sampleEnv [(.str "123", ⟨sampleToken, "urn:li:person:123"⟩)] "Hi" =
      ⟨.redirect "/" 303, [(.str "123", ⟨sampleToken, "urn:li:person:123"⟩)],
        [.createPost sampleToken "urn:li:person:123" "Hi"]⟩ ∧
    create_post failCreateEnv [(.str "123", ⟨sampleToken, "urn:li:person:123"⟩)] "Hi" =
      ⟨.template "index.html" ⟨none, none, some "Failed to create post.",
          some (fetch_linkedin_posts failCreateEnv sampleToken "urn:li:person:123").1⟩,
        [(.str "123", ⟨sampleToken, "urn:li:person:123"⟩)],
        [.createPost sampleToken "urn:li:person:123" "Hi",
          .fetchPosts sampleToken "urn:li:person:123"]⟩ :=
  ⟨by decide,
    (create_post_outcomes sampleEnv (.str "123") ⟨sampleToken, "urn:li:person:123"⟩ []
        "Hi" (by decide) (by decide) (by decide)).1
      (.obj [("id", .str "urn:li:share:42")]) rfl (by decide),
    (create_post_outcomes failCreateEnv (.str "123") ⟨sampleToken, "urn:li:person:123"⟩ []
        "Hi" (by decide) (by decide) (by decide)).2 rfl⟩

/-- C5: building the authorization URL yields the sentinel `"/error"` exactly
when client ID or redirect URI is missing or empty; otherwise it yields the
provider authorization endpoint with a query string embedding the encoded
client ID, redirect URI, scope list, and static anti-CSRF state value
(`authQueryTail`), and that URL is never the sentinel. -/
theorem auth_url_sentinel_or_provider_url (cfg : Cfg) :
    ((optStrTruthy cfg.LINKEDIN_CLIENT_ID = false ∨
      pyStrTruthy cfg.LINKEDIN_REDIRECT_URI = false) →
      get_linkedin_auth_url cfg = "/error") ∧
    (optStrTruthy cfg.LINKEDIN_CLIENT_ID = true →
      pyStrTruthy cfg.LINKEDIN_REDIRECT_URI = true →
      get_linkedin_auth_url cfg =
        LINKEDIN_AUTH_URL ++ "?" ++ "response_type=code&client_id=" ++
          quote_plus (cfg.LINKEDIN_CLIENT_ID.getD "") ++ "&" ++ "redirect_uri=" ++
          quote_plus cfg.LINKEDIN_REDIRECT_URI ++ "&" ++ authQueryTail ∧
      get_linkedin_auth_url cfg ≠ "/error") := by
  constructor
  · intro h
    rcases h with h | h <;> simp [get_linkedin_auth_url, h]
  · intro h1 h2
    refine ⟨auth_url_eq cfg h1 h2, ?_⟩
    rw [auth_url_eq cfg h1 h2]
    exact append_tail_ne_error _

theorem auth_url_sentinel_or_provider_url_witness :
    get_linkedin_auth_url badCfg = "/error" ∧
    optStrTruthy sampleCfg.LINKEDIN_CLIENT_ID = true ∧
    get_linkedin_auth_url sampleCfg ≠ "/error" :=
  ⟨(auth_url_sentinel_or_provider_url badCfg).1 (Or.inl (by decide)),
    by decide,
    ((auth_url_sentinel_or_provider_url sampleCfg).2 (by decide) (by decide)).2⟩

/-- C6: `fetch_linkedin_posts` returns the empty list whenever the access
token is falsy, the author URN is empty, the HTTP call fails, or the decoded
response has no `elements` field (including when the response is not even a
JSON object); being a total function, it raises nothing. -/
theorem fetch_posts_failure_empty (env : Env) (tok : Json) (urn : String)
    (h : pyTruthy tok = false ∨ urn = "" ∨ env.postsResp = none ∨
      ∃ pd, env.postsResp = some pd ∧ jLookup pd "elements" = none) :
    (fetch_linkedin_posts env tok urn).1 = [] := by
  by_cases hc : (!(pyTruthy tok) || !(pyStrTruthy urn)) = true
  · simp [fetch_linkedin_posts, hc]
  · rcases h with h | h | h | ⟨pd, hpd, hlk⟩
    · exact absurd (by simp [h]) hc
    · exact absurd (by simp [h, pyStrTruthy]) hc
    · simp [fetch_linkedin_posts, hc, h]
    · cases pd with
      | obj fs =>
          simp only [jLookup] at hlk
          simp [fetch_linkedin_posts, hc, hpd, jGetD, hlk, List.mapM.loop]
      | null => simp [fetch_linkedin_posts, hc, hpd, jGetD]
      | bool b => simp [fetch_linkedin_posts, hc, hpd, jGetD]
      | str s => simp [fetch_linkedin_posts, hc, hpd, jGetD]
      | num n => simp [fetch_linkedin_posts, hc, hpd, jGetD]
      | arr xs => simp [fetch_linkedin_posts, hc, hpd, jGetD]

theorem fetch_posts_failure_empty_witness :
    jLookup (.obj [("paging", .num 1)]) "elements" = none ∧
    (fetch_linkedin_posts ⟨none, none, none, some (.obj [("paging", .num 1)])⟩
      (.str "tokXYZ") "urn:li:person:123").1 = [] :=
  ⟨by decide,
    fetch_posts_failure_empty ⟨none, none, none, some (.obj [("paging", .num 1)])⟩
      (.str "tokXYZ") "urn:li:person:123"
      (Or.inr (Or.inr (Or.inr ⟨.obj [("paging", .num 1)], rfl, by decide⟩)))⟩

/-- C7: with a non-empty store, the response and outbound calls of `GET /`,
`POST /create_post` and `GET /refresh_posts` depend only on the store's first
entry: appending further authenticated users changes nothing the client can
observe. -/
theorem authenticated_ops_use_first_entry (cfg : Cfg) (env : Env) (e : Json × TokenRecord)
    (rest : Store) (c : String) :
    ((read_root cfg env (e :: rest)).response = (read_root cfg env [e]).response ∧
     (read_root cfg env (e :: rest)).calls = (read_root cfg env [e]).calls) ∧
    ((create_post env (e :: rest) c).response = (create_post env [e] c).response ∧
     (create_post env (e :: rest) c).calls = (create_post env [e] c).calls) ∧
    ((refresh_posts_route env (e :: rest)).response = (refresh_posts_route env [e]).response ∧
     (refresh_posts_route env (e :: rest)).calls = (refresh_posts_route env [e]).calls) := by
  obtain ⟨k, ti⟩ := e
  cases h : (!(pyTruthy ti.access_token) || !(pyStrTruthy ti.author_urn)) <;>
    cases hcc : (!(pyStrTruthy c)) <;>
    cases hcr : pyTruthyOpt env.createResp <;>
    simp [read_root, create_post, refresh_posts_route, create_linkedin_post,
      fetch_linkedin_posts, h, hcc, hcr]

/-- C8: `GET /login` answers 500 when URL construction returned the sentinel
`"/error"`, and otherwise redirects to the constructed provider authorization
URL. -/
theorem login_redirect_or_500 (cfg : Cfg) :
    (get_linkedin_auth_url cfg = "/error" →
      login cfg = .httpException 500 "Failed to generate LinkedIn auth URL.") ∧
    (get_linkedin_auth_url cfg ≠ "/error" →
      login cfg = .redirect (get_linkedin_auth_url cfg) 307) := by
  constructor
  · intro h
    simp only [login, h]
    decide
  · intro h
    by_cases h1 : optStrTruthy cfg.LINKEDIN_CLIENT_ID = true
    · by_cases h2 : pyStrTruthy cfg.LINKEDIN_REDIRECT_URI = true
      · simp only [login, auth_url_eq cfg h1 h2, append_tail_truthy,
          append_tail_not_endswith_error, Bool.not_false, Bool.and_self, ite_true]
      · exfalso
        apply h
        have h2' : pyStrTruthy cfg.LINKEDIN_REDIRECT_URI = false := by
          revert h2; cases pyStrTruthy cfg.LINKEDIN_REDIRECT_URI <;> simp
        simp [get_linkedin_auth_url, h2']
    · exfalso
      apply h
      have h1' : optStrTruthy cfg.LINKEDIN_CLIENT_ID = false := by
        revert h1; cases optStrTruthy cfg.LINKEDIN_CLIENT_ID <;> simp
      simp [get_linkedin_auth_url, h1']

theorem login_redirect_or_500_witness :
    login badCfg = .httpException 500 "Failed to generate LinkedIn auth URL." ∧
    login sampleCfg = .redirect (get_linkedin_auth_url sampleCfg) 307 :=
  ⟨(login_redirect_or_500 badCfg).1 (by decide),
    (login_redirect_or_500 sampleCfg).2 (by decide)⟩

/-- C9: a `POST /create_post` with empty content re-renders the page with the
inline error `Post content cannot be empty.` and an empty post list, for any
token store — the content check precedes the authentication check — leaving
the store untouched and issuing no outbound call. -/
theorem create_post_empty_content (env : Env) (store : Store) :
    create_post env store "" =
      ⟨.template "index.html" ⟨none, none, some "Post content cannot be empty.", some []⟩,
        store, []⟩ := by
  simp [create_post, pyStrTruthy]

/-- C10: `GET /`, `POST /create_post` and `GET /refresh_posts` never change
the token store, and `GET /callback` changes at most the entry keyed by the
fetched profile id, leaving every other key's binding intact. -/
theorem token_store_frame (cfg : Cfg) (env : Env) (store : Store) (c : String)
    (code err st : Option String) :
    (read_root cfg env store).store = store ∧
    (create_post env store c).store = store ∧
    (refresh_posts_route env store).store = store ∧
    (∀ k : Json, callbackStoredKey env ≠ some k →
      dictLookup (callback cfg env code err st store).store k = dictLookup store k) := by
  refine ⟨?_, ?_, ?_, ?_⟩
  · cases store with
    | nil => rfl
    | cons e rest =>
      obtain ⟨k0, ti⟩ := e
      cases h : (!(pyTruthy ti.access_token) || !(pyStrTruthy ti.author_urn)) <;>
        simp [read_root, h]
  · cases hcc : (!(pyStrTruthy c))
    · cases store with
      | nil => simp [create_post, hcc]
      | cons e rest =>
        obtain ⟨k0, ti⟩ := e
        cases h : (!(pyTruthy ti.access_token) || !(pyStrTruthy ti.author_urn)) <;>
          cases hcr : pyTruthyOpt env.createResp <;>
          simp [create_post, create_linkedin_post, fetch_linkedin_posts, hcc, h, hcr]
    · simp [create_post, hcc]
  · cases store with
    | nil => rfl
    | cons e rest =>
      obtain ⟨k0, ti⟩ := e
      cases h : (!(pyTruthy ti.access_token) || !(pyStrTruthy ti.author_urn)) <;>
        simp [refresh_posts_route, h]
  · intro k hk
    cases he : optStrTruthy err
    · cases hcode : optStrTruthy code
      · simp [callback, he, hcode]
      · cases hcfg : (!(optStrTruthy cfg.LINKEDIN_CLIENT_ID) ||
            !(optStrTruthy cfg.LINKEDIN_CLIENT_SECRET) ||
            !(pyStrTruthy cfg.LINKEDIN_REDIRECT_URI))
        · cases htd : env.tokenResp with
          | none => simp [callback, get_linkedin_access_token, he, hcode, hcfg, htd,
              pyFalsyOpt, pyTruthyOpt]
          | some td =>
            cases hin : (pyFalsyOpt (some td) || !(pyIn "access_token" td))
            · cases hpt : pyTruthy (jIndex td "access_token")
              · simp [callback, get_linkedin_access_token, get_linkedin_profile,
                  he, hcode, hcfg, htd, hin, hpt, pyFalsyOpt, pyTruthyOpt]
                split <;> rfl
              · cases hpd : env.profileResp with
                | none =>
                    simp [callback, get_linkedin_access_token, get_linkedin_profile,
                      he, hcode, hcfg, htd, hin, hpt, hpd, pyFalsyOpt, pyTruthyOpt]
                    split <;> rfl
                | some pd =>
                  cases hin2 : (pyFalsyOpt (some pd) || !(pyIn "id" pd))
                  · have hkne : k ≠ jIndex pd "id" := by
                      intro hkeq
                      apply hk
                      simp [callbackStoredKey, hpd, hkeq]
                    simp [callback, get_linkedin_access_token, get_linkedin_profile,
                      he, hcode, hcfg, htd, hin, hpt, hpd, hin2,
                      dictLookup_dictInsert_ne store (jIndex pd "id") k _ hkne]
                  · simp [callback, get_linkedin_access_token, get_linkedin_profile,
                      he, hcode, hcfg, htd, hin, hpt, hpd, hin2]
            · simp [callback, get_linkedin_access_token, he, hcode, hcfg, htd, hin]
        · simp [callback, get_linkedin_access_token, he, hcode, hcfg, pyFalsyOpt,
            pyTruthyOpt]
    · simp [callback, he]

theorem token_store_frame_witness :
    callbackStoredKey sampleEnv ≠ some (.str "999") ∧
    dictLookup (callback sampleCfg sampleEnv (some "authcode") none none sampleStore).store
        (.str "999") =
      dictLookup sampleStore (.str "999") :=
  ⟨by decide,
    (token_store_frame sampleCfg sampleEnv sampleStore "Hi" (some "authcode") none
        none).2.2.2 (.str "999") (by decide)⟩

end MyApp
